import Mathlib

/-!
Verification of the MARC Record Tool (scrape_tab.py, search_tab.py, utils.py).

Strings from the Python source are modelled as `List Char`; Python string
operations (`strip`, `lower`, `split`, containment, `int(...)`) are modelled
by the `py...` functions below, over the ASCII characters the claims exercise.
HTML/DOM access through BeautifulSoup is a collaborator: each DOM query the
code performs is modelled as a field of a structure recording that query's
result, while all logic written in the repository itself is translated
directly.
-/

/-- Python whitespace characters (the ASCII ones), as used by str.strip and
the regex class \s. -/
def pyIsSpace (c : Char) : Bool :=
  c = ' ' || c = '\t' || c = '\n' || c = '\r' || c = '\x0b' || c = '\x0c'

/-- Python str.strip(): drop leading and trailing whitespace. -/
def pyStrip (l : List Char) : List Char :=
  ((l.dropWhile pyIsSpace).reverse.dropWhile pyIsSpace).reverse

/-- Python str.lower(), per character (ASCII). -/
def pyLower (l : List Char) : List Char := l.map Char.toLower

/-- ASCII digit test by code point: 48 ('0') to 57 ('9'). -/
def pyIsDigitCh (c : Char) : Bool := decide (48 ≤ c.toNat ∧ c.toNat ≤ 57)

/-- Python str.isdigit() restricted to ASCII: nonempty and all digits. -/
def pyIsdigit (l : List Char) : Bool := !l.isEmpty && l.all pyIsDigitCh

/-- Numeric value of a string of ASCII digits, as computed by Python int()
on a string that passed isdigit(). -/
def digitsToNat (l : List Char) : Nat :=
  l.foldl (fun n c => 10 * n + (c.toNat - 48)) 0

/-- Is the first list a prefix of the second (character-wise)? -/
def isPrefixOfCh : List Char → List Char → Bool
  | [], _ => true
  | _ :: _, [] => false
  | a :: as, b :: bs => a = b && isPrefixOfCh as bs

/-- Python substring containment (`needle in hay`). -/
def containsSub (needle : List Char) : List Char → Bool
  | [] => needle.isEmpty
  | c :: cs => isPrefixOfCh needle (c :: cs) || containsSub needle cs

/-- Python str.split(sep) for a single-character separator. -/
def splitOnCh (sep : Char) : List Char → List (List Char)
  | [] => [[]]
  | c :: rest =>
    let r := splitOnCh sep rest
    if c = sep then [] :: r
    else
      match r with
      | [] => [[c]]
      | p :: ps => (c :: p) :: ps

/-- Lexicographic order on character lists (by code point), used to state
the spec's "tags lexically 000-009" range. -/
def lexLeB : List Char → List Char → Bool
  | [], _ => true
  | _ :: _, [] => false
  | a :: as, b :: bs =>
    if a.toNat < b.toNat then true
    else if a.toNat = b.toNat then lexLeB as bs
    else false

/-! ## FORMAT_C line-oriented parser (ScrapeTab.parse_format_three) -/

/-- One field produced by parse_format_three: a tag, the two indicator
characters and the (code, value) subfield list. -/
structure F3Field where
  tag : List Char
  ind1 : Char
  ind2 : Char
  subfields : List (Char × List Char)
deriving DecidableEq

/-- First step of indicator extraction in parse_format_three:
`line[4] if len(line) > 4 and line[4] != ' ' else chr(92)`. -/
def rawInd (o : Option Char) : Char :=
  match o with
  | some c => if c ≠ ' ' then c else '\\'
  | none => '\\'

/-- Second step of indicator extraction: replace a literal '#' with the
blank-indicator placeholder (backslash). -/
def normInd (o : Option Char) : Char :=
  if rawInd o = '#' then '\\' else rawInd o

/-- Subfield extraction of parse_format_three: `line[7:].strip()` is split
on '$'; each nonempty chunk gives code = first char, value = rest stripped. -/
def f3Subfields (sdata : List Char) : List (Char × List Char) :=
  if sdata.isEmpty then []
  else
    (splitOnCh '$' sdata).filterMap (fun part =>
      match part with
      | [] => none
      | c :: rest => some (c, pyStrip rest))

/-- Processing of one line in the loop of ScrapeTab.parse_format_three:
skip blank and leader lines, take the stripped first three characters as
tag, discard tags that are digits valued 0..9, normalize indicators at
offsets 4 and 5, extract subfields from offset 7 on, and drop the field
when no subfield was extracted. -/
def parseF3Line (line : List Char) : Option F3Field :=
  if pyStrip line = [] ∨ isPrefixOfCh ("leader".toList) line = true then none
  else if pyIsdigit (pyStrip (line.take 3)) = true ∧ digitsToNat (pyStrip (line.take 3)) ≤ 9 then
    none
  else if (f3Subfields (pyStrip (line.drop 7))).isEmpty then none
  else some ⟨pyStrip (line.take 3), normInd (line.get? 4), normInd (line.get? 5),
             f3Subfields (pyStrip (line.drop 7))⟩

/-- ScrapeTab.parse_format_three over the already split lines of the input
document (`marc_data.splitlines()` is the collaborator string operation
producing the line list; quantifying over arbitrary line lists covers every
possible input document). -/
def parse_format_three (lines : List (List Char)) : List F3Field :=
  lines.filterMap parseF3Line

/-- Inversion: everything parseF3Line guarantees about an emitted field. -/
theorem parseF3Line_some {line : List Char} {f : F3Field}
    (h : parseF3Line line = some f) :
    f.tag = pyStrip (line.take 3) ∧
    ¬(pyIsdigit f.tag = true ∧ digitsToNat f.tag ≤ 9) ∧
    f.ind1 = normInd (line.get? 4) ∧
    f.ind2 = normInd (line.get? 5) ∧
    f.subfields ≠ [] ∧
    f.subfields = f3Subfields (pyStrip (line.drop 7)) := by
  unfold parseF3Line at h
  split at h
  · exact absurd h (by simp)
  · split at h
    · exact absurd h (by simp)
    · split at h
      · exact absurd h (by simp)
      · rename_i hblank hdigit hsubs
        cases h
        refine ⟨rfl, hdigit, rfl, rfl, ?_, rfl⟩
        intro hnil
        exact hsubs (by simp [show f3Subfields (pyStrip (line.drop 7)) = [] from hnil])

theorem length_dropWhileCh_le (p : Char → Bool) (l : List Char) :
    (l.dropWhile p).length ≤ l.length := by
  induction l with
  | nil => simp
  | cons a as ih =>
    rw [List.dropWhile_cons]
    split
    · exact le_trans ih (by simp)
    · simp

theorem pyStrip_length_le (l : List Char) : (pyStrip l).length ≤ l.length := by
  unfold pyStrip
  rw [List.length_reverse]
  exact le_trans (length_dropWhileCh_le _ _)
    (by rw [List.length_reverse]; exact length_dropWhileCh_le _ _)

theorem lexLeB_nil (l : List Char) : lexLeB [] l = true := rfl

theorem lexLeB_cons_nil (a : Char) (as : List Char) : lexLeB (a :: as) [] = false := rfl

theorem lexLeB_cons {a b : Char} {as bs : List Char} :
    lexLeB (a :: as) (b :: bs) = true ↔
      (a.toNat < b.toNat ∨ (a.toNat = b.toNat ∧ lexLeB as bs = true)) := by
  simp only [lexLeB]
  split_ifs with hlt heq
  · simp [hlt]
  · rw [heq]; simp [Nat.lt_irrefl]
  · simp only [Bool.false_eq_true, false_iff]
    rintro (h | ⟨h, _⟩)
    · exact hlt h
    · exact heq h

/-- A string of at most three characters lying lexicographically between
"000" and "009" is a digit string whose numeric value is at most 9, hence
hits the discard test of parse_format_three. -/
theorem lexRange_forces_digit {t : List Char} (hlen : t.length ≤ 3)
    (h1 : lexLeB ("000".toList) t = true) (h2 : lexLeB t ("009".toList) = true) :
    pyIsdigit t = true ∧ digitsToNat t ≤ 9 := by
  have e0 : ("000".toList) = ['0', '0', '0'] := rfl
  have e9 : ("009".toList) = ['0', '0', '9'] := rfl
  have c0 : ('0').toNat = 48 := rfl
  have c9 : ('9').toNat = 57 := rfl
  rw [e0] at h1
  rw [e9] at h2
  match t with
  | [] => simp [lexLeB] at h1
  | [a] =>
    simp only [lexLeB_cons, lexLeB_cons_nil, lexLeB_nil, c0, c9] at h1 h2
    simp at h1 h2
    exfalso
    omega
  | [a, b] =>
    simp only [lexLeB_cons, lexLeB_cons_nil, lexLeB_nil, c0, c9] at h1 h2
    simp at h1 h2
    exfalso
    omega
  | [a, b, c] =>
    simp only [lexLeB_cons, lexLeB_cons_nil, lexLeB_nil, c0, c9] at h1 h2
    simp at h1 h2
    simp [pyIsdigit, pyIsDigitCh, digitsToNat]
    omega
  | a :: b :: c :: d :: rest =>
    exfalso
    simp [List.length] at hlen

/-- Claim C6: for every input to the FORMAT_C line-oriented parser, no field
whose tag lies lexically in the range "000" through "009" appears in the
output; such lines are discarded. -/
theorem c6_format_c_discards_control_tags (lines : List (List Char)) :
    (parse_format_three lines).all
      (fun f => !(lexLeB ("000".toList) f.tag && lexLeB f.tag ("009".toList))) = true := by
  rw [List.all_eq_true]
  intro f hf
  unfold parse_format_three at hf
  rw [List.mem_filterMap] at hf
  obtain ⟨line, -, hsome⟩ := hf
  obtain ⟨htag, hguard, -, -, -, -⟩ := parseF3Line_some hsome
  show (!(lexLeB ("000".toList) f.tag && lexLeB f.tag ("009".toList))) = true
  by_cases hA : lexLeB ("000".toList) f.tag = true
  · by_cases hB : lexLeB f.tag ("009".toList) = true
    · exfalso
      have hlen : f.tag.length ≤ 3 := by
        rw [htag]
        exact le_trans (pyStrip_length_le _) (by rw [List.length_take]; omega)
      exact hguard (lexRange_forces_digit hlen hA hB)
    · rw [Bool.not_eq_true] at hB
      rw [hB, Bool.and_false]
      rfl
  · rw [Bool.not_eq_true] at hA
    rw [hA, Bool.false_and]
    rfl

theorem normInd_ne_hash (o : Option Char) : normInd o ≠ '#' := by
  unfold normInd
  split
  · decide
  · assumption

/-- Claim C7: in the FORMAT_C parser, a line with '#' (or a literal space)
at indicator offset 4 or 5 yields the blank-indicator placeholder (the
backslash), never the literal '#'. -/
theorem c7_indicator_hash_normalized (line : List Char) (f : F3Field)
    (h : parseF3Line line = some f) :
    ((line.get? 4 = some '#' ∨ line.get? 4 = some ' ') → f.ind1 = '\\') ∧
    ((line.get? 5 = some '#' ∨ line.get? 5 = some ' ') → f.ind2 = '\\') ∧
    f.ind1 ≠ '#' ∧ f.ind2 ≠ '#' := by
  obtain ⟨-, -, h1, h2, -, -⟩ := parseF3Line_some h
  refine ⟨?_, ?_, ?_, ?_⟩
  · rintro (hc | hc) <;> rw [h1, hc] <;> decide
  · rintro (hc | hc) <;> rw [h2, hc] <;> decide
  · rw [h1]; exact normInd_ne_hash _
  · rw [h2]; exact normInd_ne_hash _

/-- A concrete FORMAT_C line with '#' at both indicator offsets. -/
def c7line : List Char := "245 ## $a Hello".toList

/-- The field parse_format_three emits for c7line. -/
def c7field : F3Field := ⟨"245".toList, '\\', '\\', [('a', "Hello".toList)]⟩

/-- Witness for C7: on c7line both indicators come out as the placeholder. -/
theorem c7_witness :
    parseF3Line c7line = some c7field ∧ c7field.ind1 = '\\' ∧ c7field.ind2 = '\\' :=
  ⟨by decide,
    (c7_indicator_hash_normalized c7line c7field (by decide)).1 (Or.inl (by decide)),
    (c7_indicator_hash_normalized c7line c7field (by decide)).2.1 (Or.inl (by decide))⟩

/-! ## FORMAT_A parser (ScrapeTab.parse_format_one)

Each candidate is one div with class "field"; the fields of `F1Div` record
the DOM queries the code performs on it: the text of the span with class
"tag" (none when the span is missing), the texts of the ind1/ind2 divs, and
for each span with class "sub_code" its text together with the text of its
next sibling. -/

structure F1Div where
  tagSpan : Option (List Char)
  ind1Div : Option (List Char)
  ind2Div : Option (List Char)
  subCodes : List (List Char × Option (List Char))
deriving DecidableEq

/-- A field committed by parse_format_one: tag, indicator pair (none for
the control tags 001/003/005/008) and (code, value) subfields. -/
structure F1Field where
  tag : List Char
  indicators : Option (List Char × List Char)
  subfields : List (List Char × List Char)
deriving DecidableEq

/-- Subfield extraction of parse_format_one: each sub_code span yields a
subfield whose code is the span's stripped text with '|' removed and whose
value is the stripped text of the span's next sibling (empty when there is
none). -/
def f1Subfields (subCodes : List (List Char × Option (List Char))) :
    List (List Char × List Char) :=
  subCodes.map (fun p =>
    ((pyStrip p.1).filter (fun c => c != '|'),
     match p.2 with | some s => pyStrip s | none => []))

/-- Processing of one "field" div in parse_format_one: skip when the tag
span is missing; indicators default to a single space when their div is
absent; a field with no subfield spans is not added. -/
def parseF1Div (d : F1Div) : Option F1Field :=
  match d.tagSpan with
  | none => none
  | some tagText =>
    if (f1Subfields d.subCodes).isEmpty then none
    else
      some ⟨pyStrip tagText,
            if pyStrip tagText ∈ ["001".toList, "003".toList, "005".toList, "008".toList] then
              none
            else
              some (match d.ind1Div with | some s => pyStrip s | none => [' '],
                    match d.ind2Div with | some s => pyStrip s | none => [' ']),
            f1Subfields d.subCodes⟩

/-- ScrapeTab.parse_format_one over the list of "field" divs found in the
document. -/
def parse_format_one (divs : List F1Div) : List F1Field :=
  divs.filterMap parseF1Div

/-! ## FORMAT_D parser (ScrapeTab.parse_format_four) -/

/-- One td cell of a row: its get_text(strip=True) text, and for each
strong element inside it the strong's stripped text with the text of its
next sibling. -/
structure F4Cell where
  text : List Char
  strongs : List (List Char × Option (List Char))
deriving DecidableEq

/-- One tr row of the citation table: the th text (none when the row has
no th) and its td cells. -/
structure F4Row where
  th : Option (List Char)
  tds : List F4Cell
deriving DecidableEq

/-- A field committed by parse_format_four or parse_plain_marc. -/
structure F4Field where
  tag : List Char
  ind1 : List Char
  ind2 : List Char
  subfields : List (Char × List Char)
deriving DecidableEq

/-- Subfield extraction of parse_format_four from the strong elements of
the third cell: code is the strong text with '|' removed, value is the
stripped sibling text, and a subfield missing either is dropped. Codes are
kept as strings here because replace() leaves arbitrary text. -/
def f4Subfields (strongs : List (List Char × Option (List Char))) :
    List (List Char × List Char) :=
  strongs.filterMap (fun p =>
    if (p.1.filter (fun c => c != '|')) = [] ∨
       (match p.2 with | some s => pyStrip s | none => []) = [] then none
    else some (p.1.filter (fun c => c != '|'),
               match p.2 with | some s => pyStrip s | none => []))

/-- A field committed by parse_format_four, with string subfield codes. -/
structure F4SField where
  tag : List Char
  ind1 : List Char
  ind2 : List Char
  subfields : List (List Char × List Char)
deriving DecidableEq

/-- Processing of one table row in parse_format_four: skip rows without a
th or with a non-digit tag or with fewer than three cells; empty indicator
cells default to a single space; fields with no kept subfield are not
added. -/
def parseF4Row (row : F4Row) : Option F4SField :=
  match row.th with
  | none => none
  | some tag =>
    if pyIsdigit tag = false then none
    else
      match row.tds with
      | c0 :: c1 :: c2 :: _ =>
        if (f4Subfields c2.strongs).isEmpty then none
        else
          some ⟨tag,
                if c0.text = [] then [' '] else c0.text,
                if c1.text = [] then [' '] else c1.text,
                f4Subfields c2.strongs⟩
      | _ => none

/-- ScrapeTab.parse_format_four over the rows of the citation table. -/
def parse_format_four (rows : List F4Row) : List F4SField :=
  rows.filterMap parseF4Row

/-! ## Plain-MARC parser (ScrapeTab.parse_plain_marc, FORMAT_B's target) -/

/-- The per-tag subfield suppression table of parse_plain_marc. -/
def discard_subfields : List (List Char × Char) :=
  [("100".toList, '9'), ("600".toList, '9'), ("650".toList, '9'),
   ("700".toList, '9'), ("830".toList, '9')]

/-- Subfield extraction of parse_plain_marc: a strong whose stripped text
starts with an underscore followed by at least one character yields the
character after the underscore as code; (tag, code) pairs listed in the
suppression table are dropped. -/
def plainSubfields (tag : List Char) (strongs : List (List Char × Option (List Char))) :
    List (Char × List Char) :=
  strongs.filterMap (fun p =>
    match p.1 with
    | '_' :: code :: _ =>
      if discard_subfields.contains (tag, code) then none
      else some (code, match p.2 with | some s => pyStrip s | none => [])
    | _ => none)

/-- Processing of one table row in parse_plain_marc: only rows with a th
start a field; indicators default to a space when their cell text is empty
and subfields come from the third cell, so rows with fewer than three cells
commit nothing; the field is added only when the tag text is nonempty and
at least one subfield survived. -/
def parsePlainRow (row : F4Row) : Option F4Field :=
  match row.th with
  | none => none
  | some tag =>
    match row.tds with
    | c0 :: c1 :: c2 :: _ =>
      if tag = [] ∨ (plainSubfields tag c2.strongs).isEmpty then none
      else
        some ⟨tag,
              if c0.text = [] then [' '] else c0.text,
              if c1.text = [] then [' '] else c1.text,
              plainSubfields tag c2.strongs⟩
    | _ => none

/-- ScrapeTab.parse_plain_marc over the rows of the plain-view table. -/
def parse_plain_marc (rows : List F4Row) : List F4Field :=
  rows.filterMap parsePlainRow

theorem length_filterMapOpt_le {α β : Type} (f : α → Option β) (l : List α) :
    (l.filterMap f).length ≤ l.length := by
  induction l with
  | nil => simp
  | cons a as ih =>
    rw [List.filterMap_cons]
    split
    · simp only [List.length_cons]
      exact Nat.le_succ_of_le ih
    · simp only [List.length_cons]
      exact Nat.succ_le_succ ih

theorem bnot_isEmpty_of_ne_nil {α : Type} {l : List α} (h : l ≠ []) : (!l.isEmpty) = true := by
  cases l with
  | nil => exact absurd rfl h
  | cons a as => rfl

theorem parseF1Div_subfields {d : F1Div} {f : F1Field} (h : parseF1Div d = some f) :
    f.subfields ≠ [] := by
  unfold parseF1Div at h
  split at h
  · exact absurd h (by simp)
  · split at h
    · exact absurd h (by simp)
    · rename_i hne
      cases h
      intro hnil
      exact hne (by simp [show f1Subfields d.subCodes = [] from hnil])

theorem parseF4Row_subfields {r : F4Row} {f : F4SField} (h : parseF4Row r = some f) :
    f.subfields ≠ [] := by
  unfold parseF4Row at h
  split at h
  · exact absurd h (by simp)
  · split at h
    · exact absurd h (by simp)
    · split at h
      · rename_i c0 c1 c2 ctail heqtds
        split at h
        · exact absurd h (by simp)
        · rename_i hne
          cases h
          intro hnil
          exact hne (by simp [show f4Subfields c2.strongs = [] from hnil])
      · exact absurd h (by simp)

theorem parsePlainRow_subfields {r : F4Row} {f : F4Field} (h : parsePlainRow r = some f) :
    f.subfields ≠ [] := by
  unfold parsePlainRow at h
  split at h
  · exact absurd h (by simp)
  · rename_i tagv htheq
    split at h
    · rename_i c0 c1 c2 ctail heqtds
      split at h
      · exact absurd h (by simp)
      · rename_i hne
        cases h
        intro hnil
        refine hne (Or.inr ?_)
        simp [show plainSubfields tagv c2.strongs = [] from hnil]
    · exact absurd h (by simp)

/-- Claim C3: for every input document and each dialect parser, a candidate
field with zero extracted subfields is never added: every output field has
at least one subfield and the output field count is at most the candidate
count (divs for FORMAT_A, lines for FORMAT_C, table rows for FORMAT_D and
the plain-MARC dialect). -/
theorem c3_no_subfieldless_fields :
    (∀ divs : List F1Div,
        (parse_format_one divs).all (fun f => !f.subfields.isEmpty) = true ∧
        (parse_format_one divs).length ≤ divs.length) ∧
    (∀ lines : List (List Char),
        (parse_format_three lines).all (fun f => !f.subfields.isEmpty) = true ∧
        (parse_format_three lines).length ≤ lines.length) ∧
    (∀ rows : List F4Row,
        (parse_format_four rows).all (fun f => !f.subfields.isEmpty) = true ∧
        (parse_format_four rows).length ≤ rows.length) ∧
    (∀ rows : List F4Row,
        (parse_plain_marc rows).all (fun f => !f.subfields.isEmpty) = true ∧
        (parse_plain_marc rows).length ≤ rows.length) := by
  refine ⟨fun xs => ⟨?_, length_filterMapOpt_le _ _⟩,
          fun xs => ⟨?_, length_filterMapOpt_le _ _⟩,
          fun xs => ⟨?_, length_filterMapOpt_le _ _⟩,
          fun xs => ⟨?_, length_filterMapOpt_le _ _⟩⟩ <;>
    rw [List.all_eq_true] <;> intro f hf
  · rw [show parse_format_one xs = xs.filterMap parseF1Div from rfl,
      List.mem_filterMap] at hf
    obtain ⟨d, -, hd⟩ := hf
    exact bnot_isEmpty_of_ne_nil (parseF1Div_subfields hd)
  · rw [show parse_format_three xs = xs.filterMap parseF3Line from rfl,
      List.mem_filterMap] at hf
    obtain ⟨line, -, hline⟩ := hf
    exact bnot_isEmpty_of_ne_nil (parseF3Line_some hline).2.2.2.2.1
  · rw [show parse_format_four xs = xs.filterMap parseF4Row from rfl,
      List.mem_filterMap] at hf
    obtain ⟨r, -, hr⟩ := hf
    exact bnot_isEmpty_of_ne_nil (parseF4Row_subfields hr)
  · rw [show parse_plain_marc xs = xs.filterMap parsePlainRow from rfl,
      List.mem_filterMap] at hf
    obtain ⟨r, -, hr⟩ := hf
    exact bnot_isEmpty_of_ne_nil (parsePlainRow_subfields hr)

/-! ## Filename deriver (utils.clean_filename, ScrapeTab.update_filename) -/

/-- ASCII alphanumeric test, the regex class [a-zA-Z0-9]. -/
def isAsciiAlnum (c : Char) : Bool :=
  decide ((48 ≤ c.toNat ∧ c.toNat ≤ 57) ∨ (65 ≤ c.toNat ∧ c.toNat ≤ 90) ∨
          (97 ≤ c.toNat ∧ c.toNat ≤ 122))

/-- utils.clean_filename: re.sub deletes every character that is neither
alphanumeric nor whitespace (this also deletes underscores, although the
function's docstring says underscores are kept), then strip, then replace
each space character with an underscore. -/
def clean_filename (l : List Char) : List Char :=
  (pyStrip (l.filter (fun c => isAsciiAlnum c || pyIsSpace c))).map
    (fun c => if c = ' ' then '_' else c)

/-- A pymarc subfield as consumed by update_filename. -/
structure MSubfield where
  code : String
  value : String
deriving DecidableEq

/-- A pymarc field as consumed by update_filename. -/
structure MField where
  tag : String
  subfields : List MSubfield
deriving DecidableEq

/-- pymarc Record.get_fields for a tag set: the record's fields carrying
one of the given tags, in record order. -/
def get_fields (tags : List String) (record : List MField) : List MField :=
  record.filter (fun f => tags.contains f.tag)

/-- ScrapeTab.update_filename: scan the 245/100 fields for subfield a to
collect title and author (a later occurrence overwrites an earlier one),
default missing ones to "Untitled"/"UnknownAuthor", compose author
underscore title, and sanitize the whole with clean_filename. The pair ta
is (title, author). -/
def update_filename (record : List MField) : List Char :=
  let ta := (get_fields ["245", "100"] record).foldl
    (fun (ta : List Char × List Char) f =>
      f.subfields.foldl
        (fun (ta : List Char × List Char) sf =>
          if f.tag = "245" ∧ sf.code = "a" then (pyStrip sf.value.toList, ta.2)
          else if f.tag = "100" ∧ sf.code = "a" then (ta.1, pyStrip sf.value.toList)
          else ta) ta)
    ([], [])
  clean_filename
    ((if ta.2 = [] then "UnknownAuthor".toList else ta.2) ++
     '_' :: (if ta.1 = [] then "Untitled".toList else ta.1))

/-- Claim C4 (code bug): with title "Moby Dick" (245 a) and author
"Melville, Herman" (100 a), update_filename yields
"Melville_HermanMoby_Dick", not the "Melville_Herman_Moby_Dick" the claim
asserts: clean_filename's character class also deletes the underscore that
separates author from title, contradicting its own docstring. -/
theorem c4_filename_eval :
    update_filename
        [⟨"245", [⟨"a", "Moby Dick"⟩]⟩, ⟨"100", [⟨"a", "Melville, Herman"⟩]⟩] =
      "Melville_HermanMoby_Dick".toList ∧
    update_filename
        [⟨"245", [⟨"a", "Moby Dick"⟩]⟩, ⟨"100", [⟨"a", "Melville, Herman"⟩]⟩] ≠
      "Melville_Herman_Moby_Dick".toList := by
  constructor
  · decide
  · decide

/-- Claim C5 (code bug): on a record with no 245 a title and no 100 a
author, update_filename yields "UnknownAuthorUntitled", not the
"UnknownAuthor_Untitled" the claim asserts: the separator underscore is
deleted by clean_filename. -/
theorem c5_default_filename_eval :
    update_filename [] = "UnknownAuthorUntitled".toList ∧
    update_filename [] ≠ "UnknownAuthor_Untitled".toList := by
  constructor
  · decide
  · decide

/-! ## Response classifier (SearchWorker, search_tab.py)

A fetched page is modelled by `Soup`, whose fields record the results of
exactly the BeautifulSoup queries the classifier performs: the joined
visible text and, for each find/find_all call, whether it produced a hit;
the two numeric-count sources keep their raw attribute strings (outer
Option: element present; inner Option: attribute present). -/

structure Soup where
  strippedText : List Char
  h1NoResults : Bool
  h1NoResultsAvailable : Bool
  divDocumentsNoresults : Bool
  trYourEntryWouldBeHere : Bool
  trBrowseEntry : Bool
  spanRecordCount : Bool
  metaTotalResults : Option (Option (List Char))
  divDocumentClass : Bool
  divBibDisplayContentMain : Bool
  divBibDisplayItemsMain : Bool
  divBibliographicData : Bool
  textResultsCount : Bool
  idNumresults : Bool
  divBrowseSearchtoolMessage : Bool
  searchStats : Option (Option (List Char))
  spanResultsFound : Bool

/-- An HTTP response as the classifier sees it: the number of redirects in
response.history, the final resolved URL (response.url), and the outcome of
each of the four regex scans of check_general_results over the lowered
body. -/
structure Response where
  historyLen : Nat
  url : String
  patSearchReturned : Bool
  patResultsColon : Bool
  patResultsFound : Bool
  patRangeOf : Bool

/-- The fixed not-found phrases of check_not_found_conditions. -/
def notFoundPhrases : List (List Char) :=
  ["no results found".toList, "no matches found".toList, "no entries found".toList,
   "search resulted in no hits".toList, "no results!".toList,
   "your search found no results.".toList, "no records found".toList]

/-- SearchWorker.check_not_found_conditions: any fixed phrase contained in
the lowered visible text, or one of the four structural no-result markers. -/
def check_not_found_conditions (soup : Soup) : Bool :=
  notFoundPhrases.any (fun p => containsSub p (pyLower soup.strippedText)) ||
  soup.h1NoResults || soup.h1NoResultsAvailable ||
  soup.divDocumentsNoresults || soup.trYourEntryWouldBeHere

/-- Python int() over a string (ASCII): strip whitespace, optional sign,
then digits possibly separated by single interior underscores; none when
the string is not a valid integer literal. -/
def intDigitsOk : List Char → Bool
  | [] => false
  | [c] => pyIsDigitCh c
  | c :: '_' :: rest => pyIsDigitCh c && intDigitsOk rest
  | c :: rest => pyIsDigitCh c && intDigitsOk rest

/-- Python int() on a string: some value, or none when it would raise
ValueError. -/
def pyInt? (s : List Char) : Option Int :=
  match pyStrip s with
  | [] => none
  | c :: rest =>
    if c = '+' then
      if intDigitsOk rest then some (Int.ofNat (digitsToNat (rest.filter (fun d => d != '_'))))
      else none
    else if c = '-' then
      if intDigitsOk rest then some (-Int.ofNat (digitsToNat (rest.filter (fun d => d != '_'))))
      else none
    else
      if intDigitsOk (c :: rest) then
        some (Int.ofNat (digitsToNat ((c :: rest).filter (fun d => d != '_'))))
      else none

/-- SearchWorker.check_meta_total_results: the totalResults meta tag's
content attribute (default "0") parsed as an int and compared with 0; a
ValueError yields False. -/
def check_meta_total_results (soup : Soup) : Bool :=
  match soup.metaTotalResults with
  | some contentAttr =>
    (match pyInt? (contentAttr.getD ("0".toList)) with
     | some n => decide (0 < n)
     | none => false)
  | none => false

/-- SearchWorker.check_search_stats: the search-stats div's
data-record-total attribute must be present and nonempty, then is parsed
as an int and compared with 0; a ValueError yields False. -/
def check_search_stats (soup : Soup) : Bool :=
  match soup.searchStats with
  | some attr =>
    (match attr with
     | some v =>
       if v = [] then false
       else
         (match pyInt? v with
          | some n => decide (0 < n)
          | none => false)
     | none => false)
  | none => false

/-- SearchWorker.check_found_conditions: True immediately when the
response was redirected, else any of the structural found signals (the
result-count span is listed twice, as in the source). -/
def check_found_conditions (soup : Soup) (resp : Response) : Bool :=
  if 0 < resp.historyLen then true
  else
    soup.trBrowseEntry || soup.spanRecordCount || check_meta_total_results soup ||
    soup.divDocumentClass || soup.divBibDisplayContentMain || soup.divBibDisplayItemsMain ||
    soup.divBibliographicData || soup.textResultsCount || soup.idNumresults ||
    soup.spanRecordCount || soup.divBrowseSearchtoolMessage || check_search_stats soup ||
    soup.spanResultsFound

/-- SearchWorker.check_general_results: the four regex patterns scanned
over the lowered response body; any match wins. -/
def check_general_results (resp : Response) : Bool :=
  resp.patSearchReturned || resp.patResultsColon || resp.patResultsFound || resp.patRangeOf

/-- The per-endpoint status emitted by SearchWorker.run on a successful
fetch. -/
inductive SearchStatus where
  | found (url : String)
  | notFound (url : String)
deriving DecidableEq

/-- The classification in SearchWorker.run after a successful fetch:
not-found conditions are checked first and emit the requested URL;
otherwise found conditions or the general-results fallback emit the final
response URL; otherwise not found with the requested URL. -/
def classifyResponse (url : String) (soup : Soup) (resp : Response) : SearchStatus :=
  if check_not_found_conditions soup then SearchStatus.notFound url
  else if check_found_conditions soup resp || check_general_results resp then
    SearchStatus.found resp.url
  else SearchStatus.notFound url

/-- Claim C1: the classifier checks the not-found signals first and
short-circuits: whenever the lowered visible text contains one of the fixed
not-found phrases, the outcome is NOT_FOUND with the requested URL, no
matter which found signals (redirects, counts, structural markers) the same
page also carries. -/
theorem c1_not_found_signals_first (url : String) (soup : Soup) (resp : Response)
    (h : notFoundPhrases.any (fun p => containsSub p (pyLower soup.strippedText)) = true) :
    classifyResponse url soup resp = SearchStatus.notFound url := by
  have hnf : check_not_found_conditions soup = true := by
    unfold check_not_found_conditions
    rw [h]
    rfl
  simp [classifyResponse, hnf]

/-- A page whose visible text holds a not-found phrase while also carrying
a positive totalResults meta count, together with empty pages and concrete
responses used by the classifier witnesses. -/
def emptySoup : Soup :=
  { strippedText := []
    h1NoResults := false
    h1NoResultsAvailable := false
    divDocumentsNoresults := false
    trYourEntryWouldBeHere := false
    trBrowseEntry := false
    spanRecordCount := false
    metaTotalResults := none
    divDocumentClass := false
    divBibDisplayContentMain := false
    divBibDisplayItemsMain := false
    divBibliographicData := false
    textResultsCount := false
    idNumresults := false
    divBrowseSearchtoolMessage := false
    searchStats := none
    spanResultsFound := false }

/-- C1's page: a not-found phrase in the text and a positive meta count. -/
def c1soup : Soup :=
  { emptySoup with
    strippedText := "No results found".toList
    metaTotalResults := some (some ("5".toList)) }

/-- A response with no redirect and no regex match. -/
def plainResp : Response := ⟨0, "http://final.example", false, false, false, false⟩

/-- Witness for C1: the phrase wins although the meta count signal fires. -/
theorem c1_witness :
    check_meta_total_results c1soup = true ∧
    classifyResponse "http://req.example" c1soup plainResp =
      SearchStatus.notFound "http://req.example" :=
  ⟨by decide, c1_not_found_signals_first "http://req.example" c1soup plainResp (by decide)⟩

/-- Claim C2: a response that underwent at least one redirect makes
check_found_conditions true regardless of any structural signal; if
additionally no not-found signal matched, the classification is FOUND
carrying the final resolved URL; a NOT_FOUND classification always carries
the originally requested URL and a FOUND one the final response URL. -/
theorem c2_redirect_is_found :
    (∀ (soup : Soup) (resp : Response), 1 ≤ resp.historyLen →
        check_found_conditions soup resp = true) ∧
    (∀ (url : String) (soup : Soup) (resp : Response), 1 ≤ resp.historyLen →
        check_not_found_conditions soup = false →
        classifyResponse url soup resp = SearchStatus.found resp.url) ∧
    (∀ (url u : String) (soup : Soup) (resp : Response),
        classifyResponse url soup resp = SearchStatus.notFound u → u = url) ∧
    (∀ (url u : String) (soup : Soup) (resp : Response),
        classifyResponse url soup resp = SearchStatus.found u → u = resp.url) := by
  refine ⟨?_, ?_, ?_, ?_⟩
  · intro soup resp h
    have h' : 0 < resp.historyLen := h
    simp [check_found_conditions, h']
  · intro url soup resp h hnf
    have h' : 0 < resp.historyLen := h
    simp [classifyResponse, hnf, check_found_conditions, h']
  · intro url u soup resp h
    unfold classifyResponse at h
    split at h
    · cases h; rfl
    · split at h
      · cases h
      · cases h; rfl
  · intro url u soup resp h
    unfold classifyResponse at h
    split at h
    · cases h
    · split at h
      · cases h; rfl
      · cases h

/-- A response that went through one redirect. -/
def redirResp : Response := ⟨1, "http://final.example", false, false, false, false⟩

/-- Witness for C2 on a redirected response with an empty page. -/
theorem c2_witness :
    check_found_conditions emptySoup redirResp = true ∧
    classifyResponse "http://req.example" emptySoup redirResp =
      SearchStatus.found "http://final.example" :=
  ⟨c2_redirect_is_found.1 emptySoup redirResp (by decide),
   c2_redirect_is_found.2.1 "http://req.example" emptySoup redirResp (by decide) (by decide)⟩

/-- Claim C10: the numeric-count checks are total: an element present whose
count attribute does not parse as a Python int makes the check return
False instead of raising, for the totalResults meta tag and for the
search-stats data-record-total attribute alike (the try/except ValueError
of the source is the none branch of pyInt? here). -/
theorem c10_malformed_counts_are_false :
    (∀ (soup : Soup) (s : List Char), soup.metaTotalResults = some (some s) →
        pyInt? s = none → check_meta_total_results soup = false) ∧
    (∀ (soup : Soup) (s : List Char), soup.searchStats = some (some s) →
        pyInt? s = none → check_search_stats soup = false) := by
  constructor
  · intro soup s hm hp
    unfold check_meta_total_results
    rw [hm]
    simp [hp]
  · intro soup s hm hp
    unfold check_search_stats
    rw [hm]
    simp [hp]

/-- A page whose count sources are present but malformed. -/
def c10soup : Soup :=
  { emptySoup with
    metaTotalResults := some (some ("N/A".toList))
    searchStats := some (some ("N/A".toList)) }

/-- Witness for C10 at the malformed count "N/A". -/
theorem c10_witness :
    check_meta_total_results c10soup = false ∧ check_search_stats c10soup = false :=
  ⟨c10_malformed_counts_are_false.1 c10soup ("N/A".toList) rfl (by decide),
   c10_malformed_counts_are_false.2 c10soup ("N/A".toList) rfl (by decide)⟩

/-! ## Endpoint template validation (SearchTab.add_library / edit_library) -/

/-- One configured library endpoint, as persisted in libraries.json. -/
structure Library where
  name : String
  isbn_url : String
  title_author_url : String
deriving DecidableEq

/-- Python str.strip() on a String. -/
def pyStripS (s : String) : String := String.mk (pyStrip s.toList)

/-- One round of SearchTab.add_library with the three dialog answers: an
empty name or a template failing a placeholder rule leaves the stored list
unchanged (the source re-prompts without appending; the append and
save_urls run only after every check passed). -/
def add_library (libs : List Library) (name isbnUrl taUrl : String) : List Library :=
  if pyStrip name.toList = [] then libs
  else if containsSub ("{title}".toList) isbnUrl.toList ||
          containsSub ("{author}".toList) isbnUrl.toList then libs
  else if !containsSub ("{isbn}".toList) isbnUrl.toList then libs
  else if containsSub ("{isbn}".toList) taUrl.toList then libs
  else if !containsSub ("{title}".toList) taUrl.toList ||
          !containsSub ("{author}".toList) taUrl.toList then libs
  else libs ++ [⟨pyStripS name, pyStripS isbnUrl, pyStripS taUrl⟩]

/-- One round of SearchTab.edit_library at a given row, with validators.url
as the collaborator predicate urlOk: any failing check returns with the
stored list unchanged; when everything passes the row is overwritten (when
nothing changed the overwrite is the identity, as in the source's changes
guard). -/
def edit_library (urlOk : String → Bool) (libs : List Library) (row : Nat)
    (name isbnUrl taUrl : String) : List Library :=
  if pyStrip name.toList = [] then libs
  else if containsSub ("{title}".toList) isbnUrl.toList ||
          containsSub ("{author}".toList) isbnUrl.toList then libs
  else if !containsSub ("{isbn}".toList) isbnUrl.toList then libs
  else if !urlOk isbnUrl then libs
  else if containsSub ("{isbn}".toList) taUrl.toList then libs
  else if !containsSub ("{title}".toList) taUrl.toList ||
          !containsSub ("{author}".toList) taUrl.toList then libs
  else if !urlOk taUrl then libs
  else libs.set row ⟨name, isbnUrl, taUrl⟩

/-- Claim C8: a title/author template missing one of the placeholders
\x7btitle\x7d or \x7bauthor\x7d, or an ISBN template containing one of
them or lacking \x7bisbn\x7d, is rejected by add_library and edit_library
alike, and the stored library list is left unchanged (so nothing is
appended or persisted). -/
theorem c8_template_validation :
    (∀ (libs : List Library) (name isbnUrl taUrl : String),
        (containsSub ("{title}".toList) taUrl.toList = false ∨
         containsSub ("{author}".toList) taUrl.toList = false ∨
         containsSub ("{title}".toList) isbnUrl.toList = true ∨
         containsSub ("{author}".toList) isbnUrl.toList = true ∨
         containsSub ("{isbn}".toList) isbnUrl.toList = false) →
        add_library libs name isbnUrl taUrl = libs) ∧
    (∀ (urlOk : String → Bool) (libs : List Library) (row : Nat)
        (name isbnUrl taUrl : String),
        (containsSub ("{title}".toList) taUrl.toList = false ∨
         containsSub ("{author}".toList) taUrl.toList = false ∨
         containsSub ("{title}".toList) isbnUrl.toList = true ∨
         containsSub ("{author}".toList) isbnUrl.toList = true ∨
         containsSub ("{isbn}".toList) isbnUrl.toList = false) →
        edit_library urlOk libs row name isbnUrl taUrl = libs) := by
  constructor
  · intro libs name isbnUrl taUrl h
    unfold add_library
    split_ifs with h1 h2 h3 h4 h5
    · rfl
    · rfl
    · rfl
    · rfl
    · rfl
    · exfalso
      rcases h with hc | hc | hc | hc | hc
      · exact h5 (by rw [hc]; simp)
      · exact h5 (by rw [hc]; simp)
      · exact h2 (by rw [hc]; simp)
      · exact h2 (by rw [hc]; simp)
      · exact h3 (by rw [hc]; simp)
  · intro urlOk libs row name isbnUrl taUrl h
    unfold edit_library
    split_ifs with h1 h2 h3 h4 h5 h6 h7
    · rfl
    · rfl
    · rfl
    · rfl
    · rfl
    · rfl
    · rfl
    · exfalso
      rcases h with hc | hc | hc | hc | hc
      · exact h6 (by rw [hc]; simp)
      · exact h6 (by rw [hc]; simp)
      · exact h2 (by rw [hc]; simp)
      · exact h2 (by rw [hc]; simp)
      · exact h3 (by rw [hc]; simp)

/-- A valid stored endpoint used by the C8 witness. -/
def c8lib : Library := ⟨"Lib", "http://x/{isbn}", "http://x/{title}/{author}"⟩

/-- Witness for C8: a title/author template missing the author placeholder
is rejected by both add_library and edit_library, the list staying as it
was. -/
theorem c8_witness :
    add_library [c8lib] "New" "http://y/{isbn}" "http://y/{title}" = [c8lib] ∧
    edit_library (fun _ => true) [c8lib] 0 "New" "http://y/{isbn}" "http://y/{title}" =
      [c8lib] :=
  ⟨c8_template_validation.1 [c8lib] "New" "http://y/{isbn}" "http://y/{title}"
      (Or.inr (Or.inl (by decide))),
   c8_template_validation.2 (fun _ => true) [c8lib] 0 "New" "http://y/{isbn}"
      "http://y/{title}" (Or.inr (Or.inl (by decide)))⟩

/-! ## Search worker and cancellation
(SearchWorker.run / SearchWorker.stop, SearchTab.cancel_search) -/

/-- What one endpoint's HTTP request would produce. -/
inductive FetchOutcome where
  | failure (msg : String)
  | success (soup : Soup) (resp : Response)

/-- One endpoint as the worker sees it: the result of construct_url (none
when it fails) and the predetermined outcome of its request. -/
structure Endpoint where
  url? : Option String
  outcome : FetchOutcome

/-- A status update emitted through update_status. -/
inductive Emission where
  | searching (i : Nat) (url : String)
  | found (i : Nat) (url : String)
  | notFound (i : Nat) (url : String)
  | error (i : Nat) (info : String)

/-- The emissions produced once a request has resolved: on a request
exception log_error emits Error with the message and run emits Error with
the URL; on success the classification of classifyResponse is emitted. -/
def resolveEmissions (i : Nat) (url : String) : FetchOutcome → List Emission
  | FetchOutcome.failure msg =>
    [Emission.error i (String.append "Request error: " msg), Emission.error i url]
  | FetchOutcome.success soup resp =>
    match classifyResponse url soup resp with
    | SearchStatus.found u => [Emission.found i u]
    | SearchStatus.notFound u => [Emission.notFound i u]

/-- The loop of SearchWorker.run, with the cooperative stop flag modelled
by the number c of flag reads that still return true: the reads are
sequential (the loop-top check, then the pre-request check), read number r
observes the flag true exactly when r < c, and a cancel request arriving
after read c-1 makes every later read return false, exactly like the
monotone _is_running flag. i is the endpoint index, r the reads so far.
An endpoint whose URL construction fails consumes one read and emits one
error; a processed endpoint consumes two reads and emits Searching plus
its resolution. -/
def runGo : List Endpoint → Nat → Nat → Nat → List Emission
  | [], _, _, _ => []
  | ep :: rest, i, r, c =>
    if c ≤ r then []
    else
      match ep.url? with
      | none => Emission.error i "URL construction failed." :: runGo rest (i + 1) (r + 1) c
      | some url =>
        Emission.searching i url ::
          (if c ≤ r + 1 then []
           else resolveEmissions i url ep.outcome ++ runGo rest (i + 1) (r + 2) c)

/-- SearchWorker.run over the full endpoint list (the redundant initial
flag check of run observes the same state as the first loop-top check). -/
def runWorker (eps : List Endpoint) (c : Nat) : List Emission :=
  runGo eps 0 0 c

/-- The status cell of one table row. -/
inductive RowStatus where
  | pending
  | searching
  | found (url : String)
  | notFound
  | error
  | canceled
deriving DecidableEq

/-- SearchTab.update_status applied to the table state. -/
def applyEmission (t : Nat → RowStatus) : Emission → (Nat → RowStatus)
  | Emission.searching i _ => fun j => if j = i then RowStatus.searching else t j
  | Emission.found i u => fun j => if j = i then RowStatus.found u else t j
  | Emission.notFound i _ => fun j => if j = i then RowStatus.notFound else t j
  | Emission.error i _ => fun j => if j = i then RowStatus.error else t j

/-- Deliver a list of queued status updates in order. -/
def applyEmissions (es : List Emission) (t : Nat → RowStatus) : Nat → RowStatus :=
  es.foldl applyEmission t

/-- The rewrite loop of SearchTab.cancel_search: every row still showing
"Searching..." is flipped to Canceled; every other row is untouched. -/
def cancelRewrite (t : Nat → RowStatus) : Nat → RowStatus :=
  fun j => if t j = RowStatus.searching then RowStatus.canceled else t j

/-- Final table after a user cancel: the worker's updates are queued signal
events; d of them were delivered before cancel_search ran (cancel_search
first blocks in stop/wait until the worker exits, so the remaining ones are
delivered only after its Searching-to-Canceled rewrite). -/
def finalTable (eps : List Endpoint) (c d : Nat) : Nat → RowStatus :=
  applyEmissions ((runWorker eps c).drop d)
    (cancelRewrite (applyEmissions ((runWorker eps c).take d) (fun _ => RowStatus.pending)))

/-- The endpoint of the C9 counterexample: the URL constructs fine and the
fetch succeeds after one redirect, so it classifies as FOUND. -/
def c9ep : Endpoint := ⟨some "http://req.example", FetchOutcome.success emptySoup redirResp⟩

/-- Counterexample for C9 as stated: cancel is requested while endpoint 0's
request is in flight (both of its flag reads already returned true, c = 2);
at the moment cancel_search runs its rewrite only the Searching... update
had been delivered (d = 1), so the row is first flipped to Canceled — yet
the queued resolution then overwrites it: an endpoint that was mid-search
(pending) when cancel was issued still transitions to FOUND. -/
theorem c9_counterexample :
    applyEmissions ((runWorker [c9ep] 2).take 1) (fun _ => RowStatus.pending) 0 =
      RowStatus.searching ∧
    finalTable [c9ep] 2 1 0 = RowStatus.found "http://final.example" := by
  constructor
  · decide
  · decide

/-- Claim C9 (amended): cancellation is cooperative and observed only at
the loop-top and pre-request checks; once the worker observes the cancel
flag it emits nothing further, so endpoints not yet started stay untouched,
and the cancel_search rewrite flips exactly the rows still showing
Searching... to Canceled, leaving every other row unchanged. An endpoint
whose request was already dispatched when cancel was requested still
resolves and is reported normally rather than canceled. -/
theorem c9_cancel_cooperative :
    (∀ (eps : List Endpoint) (i r c : Nat), c ≤ r → runGo eps i r c = []) ∧
    (∀ (t : Nat → RowStatus) (j : Nat),
        (t j = RowStatus.searching → cancelRewrite t j = RowStatus.canceled) ∧
        (t j ≠ RowStatus.searching → cancelRewrite t j = t j)) := by
  constructor
  · intro eps i r c h
    cases eps with
    | nil => rfl
    | cons ep rest =>
      unfold runGo
      rw [if_pos h]
  · intro t j
    constructor
    · intro h
      unfold cancelRewrite
      rw [if_pos h]
    · intro h
      unfold cancelRewrite
      rw [if_neg h]

/-- Witness for the amended C9: with the flag observed false from the start
nothing is emitted, and a Searching... row is flipped by the rewrite. -/
theorem c9_witness :
    runGo [c9ep] 0 0 0 = [] ∧
    cancelRewrite (fun _ => RowStatus.searching) 0 = RowStatus.canceled :=
  ⟨c9_cancel_cooperative.1 [c9ep] 0 0 0 (Nat.le_refl 0),
   (c9_cancel_cooperative.2 (fun _ => RowStatus.searching) 0).1 rfl⟩
